import Mathlib

/-!
Verification of the VibeBoard server workflow: mood→palette and mood→playlist
mappers, the external-service adapters (quote generation, image search,
mood-from-image classification) with their fallback behaviour, the in-memory
moodboard store, and the request handlers built from them.

The JavaScript/TypeScript source is embedded shallowly:
* JS strings are Lean `String`s; the per-character operations (`toLowerCase`,
  `trim`, `includes`, `split(' ')[0]`, the `[^a-z]` strip) are modelled over
  `String.data` character lists (ASCII behaviour, which is all the tables use).
* An object literal of type `Record<string, T>` is modelled as an association
  list in source order; lookup is own-property lookup (prototype-chain
  artifacts are outside the model) and `Object.entries` iterates that order.
* A JS `Map` is an association list where `set` overwrites in place.
* Each `async` function that performs one external call takes the outcome of
  that call as an explicit argument; a thrown JS error is `Except.error`, so a
  function that "never raises" always returns `Except.ok`.
-/

namespace VibeBoard

/-! ### JavaScript string primitives -/

/-- JS `s.toLowerCase()` (ASCII range, which is all the mood tables use). -/
def jsToLower (s : String) : String := ⟨s.data.map Char.toLower⟩

/-- JS `s.trim()`: strip whitespace from both ends. -/
def jsTrim (s : String) : String :=
  ⟨((s.data.dropWhile Char.isWhitespace).reverse.dropWhile Char.isWhitespace).reverse⟩

/-- JS `s.includes(t)`: `t` occurs contiguously inside `s`. -/
def jsIncludes (s t : String) : Bool := decide (t.data <:+: s.data)

/-- JS `s.split(' ')[0]`: the prefix of `s` up to the first space character
(split always returns a non-empty array, so index 0 exists). -/
def firstSpaceToken (l : List Char) : List Char := l.takeWhile (fun c => c ≠ ' ')

/-- JS `s.replace(/[^a-z]/g, '')`: keep only lower-case ASCII letters. -/
def stripNonLowerAlpha (l : List Char) : List Char :=
  l.filter (fun c => 'a' ≤ c && c ≤ 'z')

/-- Own-property lookup in an object literal / `Map.get`, over an association
list whose entries are in source order. -/
def tableLookup {κ α : Type} [DecidableEq κ] (k : κ) : List (κ × α) → Option α
  | [] => none
  | (k', v) :: rest => if k' = k then some v else tableLookup k rest

/-- JS `Map.set`: overwrite an existing binding in place, else append. -/
def mapSet {κ α : Type} [DecidableEq κ] (k : κ) (v : α) : List (κ × α) → List (κ × α)
  | [] => [(k, v)]
  | (k', v') :: rest => if k' = k then (k, v) :: rest else (k', v') :: mapSet k v rest

/-! ### Mood tables (source order preserved) -/

/-- `moodColorMap`: mood → palette of hex colors. -/
def moodColorMap : List (String × List String) :=
  [("happy", ["#FFA726", "#66BB6A", "#42A5F5", "#FFEB3B"]),
   ("peaceful", ["#81C784", "#64B5F6", "#A5D6A7", "#E1F5FE"]),
   ("excited", ["#FF7043", "#FFA726", "#FFCA28", "#EC407A"]),
   ("sad", ["#90A4AE", "#78909C", "#B0BEC5", "#CFD8DC"]),
   ("angry", ["#E53935", "#FF5722", "#F44336", "#D32F2F"]),
   ("anxious", ["#9E9E9E", "#78909C", "#546E7A", "#607D8B"]),
   ("motivated", ["#4CAF50", "#2196F3", "#FF9800", "#9C27B0"]),
   ("creative", ["#9C27B0", "#E91E63", "#FF5722", "#607D8B"]),
   ("nostalgic", ["#8D6E63", "#A1887F", "#BCAAA4", "#D7CCC8"]),
   ("dreamy", ["#CE93D8", "#F8BBD9", "#C5CAE9", "#DCEDC8"])]

/-- `moodPlaylistMap`: mood → Spotify playlist id. -/
def moodPlaylistMap : List (String × String) :=
  [("happy", "37i9dQZF1DX0XUsuxWHRQd"),
   ("peaceful", "37i9dQZF1DWZqd5JICZI0u"),
   ("excited", "37i9dQZF1DX32NsLKyzScr"),
   ("sad", "37i9dQZF1DX3YSRoSdA634"),
   ("motivated", "37i9dQZF1DXdxcBWuJkbcy"),
   ("creative", "37i9dQZF1DX0SM0LYsmbMT"),
   ("nostalgic", "37i9dQZF1DX1s9knjP51Oa"),
   ("dreamy", "37i9dQZF1DX3Sp0P28SIer")]

/-- Default palette for unknown moods. -/
def defaultColors : List String := ["#42A5F5", "#66BB6A", "#FFA726", "#AB47BC"]

/-- Default playlist id for unknown moods (the literal returned at the end of
`getPlaylistForMood`). -/
def defaultPlaylistId : String := "37i9dQZF1DX0XUsuxWHRQd"

/-- The partial-match test of both mappers:
`lowerMood.includes(key) || key.includes(lowerMood)`. -/
def moodMatches (lowerMood : String) (key : String) : Bool :=
  jsIncludes lowerMood key || jsIncludes key lowerMood

/-! ### The mappers -/

/-- `getColorsForMood`: exact lookup, then first partial match in table order,
then the default palette. A present palette array is always truthy in JS, so
the exact branch is taken whenever the key is present. -/
def getColorsForMood (mood : String) : List String :=
  let lowerMood := jsToLower mood
  match tableLookup lowerMood moodColorMap with
  | some colors => colors
  | none =>
    match moodColorMap.find? (fun p => moodMatches lowerMood p.1) with
    | some p => p.2
    | none => defaultColors

/-- `getPlaylistForMood` (TS return type `string | undefined`): the exact
branch tests JS truthiness of the looked-up string, so a missing key and a
hypothetical empty-string value both fall through to the partial scan. -/
def getPlaylistForMood (mood : String) : Option String :=
  let lowerMood := jsToLower mood
  let exact := (tableLookup lowerMood moodPlaylistMap).getD ""
  if exact ≠ "" then some exact
  else
    match moodPlaylistMap.find? (fun p => moodMatches lowerMood p.1) with
    | some p => some p.2
    | none => some defaultPlaylistId

/-! ### External-service adapters

`openai.apiKey` and `UNSPLASH_ACCESS_KEY` default to `""` when no environment
variable is set, and `!key` in JS is exactly the test `key = ""` for strings.
-/

/-- Outcome of one `openai.chat.completions.create` call: a delivered response
whose `choices[0].message.content` may be null, or any thrown failure (network
error, API error, malformed response). -/
inductive ChatOutcome : Type
  | success (content : Option String)
  | failure
deriving DecidableEq, Repr

/-- Outcome of the Unsplash `fetch`: an HTTP response (with its `ok` flag and,
when well-formed, the mapped `data.results` URLs), or a network failure. -/
inductive FetchOutcome : Type
  | response (ok : Bool) (urls : List String)
  | networkFailure
deriving DecidableEq, Repr

/-- The fallback quote template (the template literal includes the quote
characters themselves). -/
def quoteFallback (mood : String) : String :=
  "\"Every " ++ mood ++ " moment is a step toward growth and self-discovery.\""

/-- The four fixed fallback image URLs. -/
def placeholderImages : List String :=
  ["https://images.unsplash.com/photo-1506905925346-21bda4d32df4?ixlib=rb-4.0.3&auto=format&fit=crop&w=800&h=600",
   "https://images.unsplash.com/photo-1441974231531-c6227db76b6e?ixlib=rb-4.0.3&auto=format&fit=crop&w=800&h=600",
   "https://images.unsplash.com/photo-1481627834876-b7833e8f5570?ixlib=rb-4.0.3&auto=format&fit=crop&w=800&h=600",
   "https://images.unsplash.com/photo-1495474472287-4d71bcdd2085?ixlib=rb-4.0.3&auto=format&fit=crop&w=800&h=600"]

/-- `generateAIQuote`. The credential check sits before the `try` block: with
`apiKey` empty it throws `"OpenAI API key not configured"`. Inside the `try`,
any failure is caught and the fallback template returned; a null or
whitespace-only `content` also falls back via `|| fallback`. -/
def generateAIQuote (apiKey mood : String) (outcome : ChatOutcome) : Except String String :=
  if apiKey = "" then Except.error "OpenAI API key not configured"
  else
    match outcome with
    | ChatOutcome.success content =>
      let c := jsTrim (content.getD "")
      Except.ok (if c = "" then quoteFallback mood else c)
    | ChatOutcome.failure => Except.ok (quoteFallback mood)

/-- `fetchUnsplashImages`. The credential check sits before the `try` block:
with the key empty it throws `"Unsplash API key not configured"`. Inside the
`try`, a non-ok status throws and is caught by the same `catch`, as is any
network or parse failure — all yield the placeholder list. -/
def fetchUnsplashImages (accessKey mood : String) (outcome : FetchOutcome) :
    Except String (List String) :=
  if accessKey = "" then Except.error "Unsplash API key not configured"
  else
    match outcome with
    | FetchOutcome.response true urls => Except.ok urls
    | FetchOutcome.response false _ => Except.ok placeholderImages
    | FetchOutcome.networkFailure => Except.ok placeholderImages

/-- The post-processing of the vision response:
`content?.trim().toLowerCase() || "peaceful"`, then
`.split(' ')[0].replace(/[^a-z]/g, '')`. -/
def detectedMoodOf (content : Option String) : String :=
  let detectedMood : String :=
    match content with
    | none => "peaceful"
    | some s =>
      let t := jsToLower (jsTrim s)
      if t = "" then "peaceful" else t
  ⟨stripNonLowerAlpha (firstSpaceToken detectedMood.data)⟩

/-- `analyzeMoodFromImage`. The credential check sits before the `try` block:
with `apiKey` empty it throws. Inside the `try`, any failure is caught and
`"peaceful"` returned; a delivered response is post-processed by
`detectedMoodOf`. -/
def analyzeMoodFromImage (apiKey base64Image : String) (outcome : ChatOutcome) :
    Except String String :=
  if apiKey = "" then Except.error "OpenAI API key not configured"
  else
    match outcome with
    | ChatOutcome.success content => Except.ok (detectedMoodOf content)
    | ChatOutcome.failure => Except.ok "peaceful"

/-! ### Moodboard store (`MemStorage`) -/

/-- The persisted moodboard record (`createdAt` is the clock value passed to
`create`). -/
structure Moodboard : Type where
  id : Nat
  mood : String
  quote : String
  images : List String
  colors : List String
  spotifyPlaylistId : Option String
  shareId : String
  createdAt : Nat
deriving DecidableEq, Repr

/-- The insert shape accepted by `createMoodboard`. -/
structure InsertMoodboard : Type where
  mood : String
  quote : String
  images : List String
  colors : List String
  spotifyPlaylistId : Option String
  shareId : String
deriving DecidableEq, Repr

/-- `MemStorage` state: the by-id map, the shareId→id index, and the id
counter (initialised to 1). -/
structure MemStorage : Type where
  moodboards : List (Nat × Moodboard)
  shareIdMap : List (String × Nat)
  currentId : Nat
deriving DecidableEq, Repr

/-- A fresh store, as built by the constructor. -/
def MemStorage.empty : MemStorage := ⟨[], [], 1⟩

/-- JS `x || null` on an optional string: an empty string is falsy and is
coerced to null. -/
def jsOrNull (o : Option String) : Option String :=
  match o with
  | some s => if s = "" then none else some s
  | none => none

/-- `MemStorage.createMoodboard`: take the next id, build the record, insert
into both maps, return the record with the new state. `now` is the value of
`new Date()`. -/
def createMoodboard (st : MemStorage) (ins : InsertMoodboard) (now : Nat) :
    Moodboard × MemStorage :=
  let id := st.currentId
  let mb : Moodboard :=
    { id := id, mood := ins.mood, quote := ins.quote, images := ins.images,
      colors := ins.colors, spotifyPlaylistId := jsOrNull ins.spotifyPlaylistId,
      shareId := ins.shareId, createdAt := now }
  (mb, { moodboards := mapSet id mb st.moodboards,
         shareIdMap := mapSet ins.shareId id st.shareIdMap,
         currentId := st.currentId + 1 })

/-- `MemStorage.getMoodboard`. -/
def getMoodboard (st : MemStorage) (id : Nat) : Option Moodboard :=
  tableLookup id st.moodboards

/-- `MemStorage.getMoodboardByShareId`: `if (!id) return undefined` is falsy
on both a missing entry and a (never occurring) id 0. -/
def getMoodboardByShareId (st : MemStorage) (shareId : String) : Option Moodboard :=
  match tableLookup shareId st.shareIdMap with
  | none => none
  | some id => if id = 0 then none else getMoodboard st id

/-- Run a sequence of creates, returning the created records in order together
with the final state. -/
def runCreates : MemStorage → List (InsertMoodboard × Nat) → List Moodboard × MemStorage
  | st, [] => ([], st)
  | st, (ins, now) :: rest =>
    let p := createMoodboard st ins now
    let q := runCreates p.2 rest
    (p.1 :: q.1, q.2)

/-! ### Request handlers

A handler result is the HTTP status it responds with, paired with what the
route produced. Both handlers wrap everything in one `try/catch` whose catch
responds with status 500 — a Zod validation throw lands in the same catch as
any other error.
-/

/-- POST `/api/analyze-mood`: validate that the body carries an `image`
string, call `analyzeMoodFromImage`, respond `{ mood }`; any throw (validation
included) yields a 500. Returns (status, responded mood when 200). -/
def postAnalyzeMood (apiKey : String) (image : Option String) (outcome : ChatOutcome) :
    Nat × Option String :=
  match image with
  | none => (500, none)
  | some img =>
    match analyzeMoodFromImage apiKey img outcome with
    | Except.ok mood => (200, some mood)
    | Except.error _ => (500, none)

/-- POST `/api/moodboards`: validate the mood (`z.string().min(1).max(100)`),
run the image fetch and quote generation jointly (`Promise.all` rejects if
either rejects), compute colors and playlist, create the record. Any throw —
validation or a rejected adapter — lands in the catch and yields a 500 with
the store untouched. Returns (status, store after the request). -/
def postMoodboards (st : MemStorage) (unsplashKey openaiKey : String)
    (moodField : Option String) (fetchOutcome : FetchOutcome) (chatOutcome : ChatOutcome)
    (shareId : String) (now : Nat) : Nat × MemStorage :=
  match moodField with
  | none => (500, st)
  | some mood =>
    if mood.length < 1 ∨ 100 < mood.length then (500, st)
    else
      match fetchUnsplashImages unsplashKey mood fetchOutcome,
            generateAIQuote openaiKey mood chatOutcome with
      | Except.ok images, Except.ok quote =>
        let st' := (createMoodboard st
          { mood := mood, quote := quote, images := images,
            colors := getColorsForMood mood,
            spotifyPlaylistId := getPlaylistForMood mood,
            shareId := shareId } now).2
        (200, st')
      | _, _ => (500, st)

/-! ### Association-list and first-match lemmas -/

theorem tableLookup_mem {κ α : Type} [DecidableEq κ] {k : κ} {v : α} :
    ∀ {l : List (κ × α)}, tableLookup k l = some v → (k, v) ∈ l
  | [], h => by simp [tableLookup] at h
  | (k', v') :: rest, h => by
    by_cases hk : k' = k
    · subst hk
      simp [tableLookup] at h
      subst h
      exact List.mem_cons_self _ _
    · simp only [tableLookup, if_neg hk] at h
      exact List.mem_cons_of_mem _ (tableLookup_mem h)

theorem tableLookup_eq_none_of {κ α : Type} [DecidableEq κ] {k : κ} :
    ∀ {l : List (κ × α)}, (∀ v, (k, v) ∉ l) → tableLookup k l = none
  | [], _ => rfl
  | (k', v') :: rest, h => by
    have hk : k' ≠ k := by
      intro e
      subst e
      exact h v' (List.mem_cons_self _ _)
    simp only [tableLookup, if_neg hk]
    exact tableLookup_eq_none_of (fun v hv => h v (List.mem_cons_of_mem _ hv))

theorem tableLookup_of_mem {κ α : Type} [DecidableEq κ] {k : κ} {v : α} :
    ∀ {l : List (κ × α)}, (l.map Prod.fst).Nodup → (k, v) ∈ l → tableLookup k l = some v
  | [], _, h => absurd h (List.not_mem_nil _)
  | (k', v') :: rest, hnd, h => by
    rcases List.mem_cons.1 h with h1 | h2
    · rw [Prod.mk.injEq] at h1
      obtain ⟨e1, e2⟩ := h1
      subst e1
      subst e2
      simp [tableLookup]
    · have hk : k' ≠ k := by
        intro e
        subst e
        have hmem : k' ∈ rest.map Prod.fst := List.mem_map_of_mem Prod.fst h2
        rw [List.map_cons, List.nodup_cons] at hnd
        exact hnd.1 hmem
      simp only [tableLookup, if_neg hk]
      refine tableLookup_of_mem ?_ h2
      rw [List.map_cons, List.nodup_cons] at hnd
      exact hnd.2

theorem find?_eq_get_of_first {α : Type} (p : α → Bool) :
    ∀ (l : List α) (i : Fin l.length), p (l.get i) = true →
      (∀ j : Fin l.length, (j : Nat) < (i : Nat) → p (l.get j) = false) →
      l.find? p = some (l.get i)
  | [], i, _, _ => absurd i.isLt (by simp)
  | a :: l, ⟨0, _⟩, hi, _ => by
    simp only [List.get] at hi
    simp [List.find?, hi]
  | a :: l, ⟨n + 1, hn⟩, hi, hj => by
    have ha : p a = false := hj ⟨0, Nat.succ_pos _⟩ (Nat.succ_pos _)
    have ih := find?_eq_get_of_first p l ⟨n, Nat.lt_of_succ_lt_succ hn⟩ hi
      (fun j hlt => hj ⟨j.1 + 1, Nat.succ_lt_succ j.isLt⟩ (Nat.succ_lt_succ hlt))
    simp [List.find?, ha, ih]

theorem tableLookup_mapSet_self {κ α : Type} [DecidableEq κ] (k : κ) (v : α) :
    ∀ m : List (κ × α), tableLookup k (mapSet k v m) = some v
  | [] => by simp [mapSet, tableLookup]
  | (k', v') :: rest => by
    by_cases h : k' = k
    · subst h
      simp [mapSet, tableLookup]
    · simp only [mapSet, if_neg h, tableLookup]
      exact tableLookup_mapSet_self k v rest

theorem tableLookup_mapSet_ne {κ α : Type} [DecidableEq κ] {k k' : κ} (hne : k' ≠ k) (v : α) :
    ∀ m : List (κ × α), tableLookup k' (mapSet k v m) = tableLookup k' m
  | [] => by simp [mapSet, tableLookup, Ne.symm hne]
  | (k'', v'') :: rest => by
    by_cases h : k'' = k
    · subst h
      simp [mapSet, tableLookup, Ne.symm hne]
    · simp only [mapSet, if_neg h, tableLookup]
      rw [tableLookup_mapSet_ne hne v rest]

/-! ### Store-run lemmas -/

theorem runCreates_currentId :
    ∀ (l : List (InsertMoodboard × Nat)) (st : MemStorage),
      (runCreates st l).2.currentId = st.currentId + l.length
  | [], _ => rfl
  | (ins, now) :: rest, st => by
    show (runCreates (createMoodboard st ins now).2 rest).2.currentId = _
    rw [runCreates_currentId rest]
    simp [createMoodboard]
    omega

theorem runCreates_ids :
    ∀ (l : List (InsertMoodboard × Nat)) (st : MemStorage),
      (runCreates st l).1.map (fun mb => mb.id) = List.range' st.currentId l.length
  | [], _ => rfl
  | (ins, now) :: rest, st => by
    show ((createMoodboard st ins now).1 :: (runCreates (createMoodboard st ins now).2 rest).1).map
        (fun mb => mb.id) = _
    rw [List.map_cons, runCreates_ids rest]
    simp [createMoodboard, List.range']

theorem runCreates_lookup_miss (sid : String) :
    ∀ (l : List (InsertMoodboard × Nat)) (st : MemStorage),
      sid ∉ l.map (fun q => q.1.shareId) →
      tableLookup sid (runCreates st l).2.shareIdMap = tableLookup sid st.shareIdMap
  | [], _, _ => rfl
  | (ins, now) :: rest, st, hs => by
    have h1 : ins.shareId ≠ sid := by
      intro e
      exact hs (by simp [e])
    have h2 : sid ∉ rest.map (fun q => q.1.shareId) := by
      intro hm
      exact hs (by simp [hm])
    show tableLookup sid (runCreates (createMoodboard st ins now).2 rest).2.shareIdMap = _
    rw [runCreates_lookup_miss sid rest _ h2]
    simp only [createMoodboard]
    exact tableLookup_mapSet_ne (Ne.symm h1) _ _

theorem getByShareId_after_create (st : MemStorage) (ins : InsertMoodboard) (now : Nat)
    (h : st.currentId ≠ 0) :
    getMoodboardByShareId (createMoodboard st ins now).2 ins.shareId =
      some (createMoodboard st ins now).1 := by
  simp [getMoodboardByShareId, createMoodboard, tableLookup_mapSet_self, h, getMoodboard]

/-! ### C1: quote generator fallback behaviour -/

/-- C1 counterexample: when the text-generation credential is absent the
Quote Generator does not return the fallback template — it raises
`"OpenAI API key not configured"` to its caller. -/
theorem generateAIQuote_missing_key_raises :
    generateAIQuote "" "happy" ChatOutcome.failure =
      Except.error "OpenAI API key not configured" ∧
    (Except.error "OpenAI API key not configured" : Except String String) ≠
      Except.ok (quoteFallback "happy") :=
  ⟨rfl, by simp⟩

/-- C1 amended: with the credential present, `generateAIQuote` never raises —
an external-call failure or a missing/blank response both yield the fixed
template `"Every {mood} moment is a step toward growth and self-discovery."`
— but with the credential absent it raises instead of falling back. -/
theorem generateAIQuote_fallback (apiKey mood : String) (outcome : ChatOutcome)
    (hk : apiKey ≠ "") :
    (∃ q, generateAIQuote apiKey mood outcome = Except.ok q) ∧
    generateAIQuote apiKey mood ChatOutcome.failure = Except.ok (quoteFallback mood) ∧
    generateAIQuote apiKey mood (ChatOutcome.success none) = Except.ok (quoteFallback mood) ∧
    generateAIQuote "" mood outcome = Except.error "OpenAI API key not configured" := by
  refine ⟨?_, ?_, ?_, rfl⟩
  · cases outcome with
    | success content =>
      refine ⟨if jsTrim (content.getD "") = "" then quoteFallback mood
        else jsTrim (content.getD ""), ?_⟩
      simp [generateAIQuote, hk]
    | failure =>
      refine ⟨quoteFallback mood, ?_⟩
      simp [generateAIQuote, hk]
  · simp [generateAIQuote, hk]
  · simp [generateAIQuote, hk, jsTrim]

/-- C1 witness: with a non-empty credential and a failing external call, the
fallback template is returned. -/
theorem generateAIQuote_fallback_witness :
    generateAIQuote "k" "happy" ChatOutcome.failure = Except.ok (quoteFallback "happy") :=
  (generateAIQuote_fallback "k" "happy" ChatOutcome.failure (by decide)).2.1

/-! ### C2: image fetcher fallback behaviour -/

/-- C2 counterexample: when the image-search credential is absent the Image
Fetcher does not return the placeholder list — it raises
`"Unsplash API key not configured"` to its caller. -/
theorem fetchUnsplashImages_missing_key_raises :
    fetchUnsplashImages "" "happy" FetchOutcome.networkFailure =
      Except.error "Unsplash API key not configured" ∧
    (Except.error "Unsplash API key not configured" : Except String (List String)) ≠
      Except.ok placeholderImages :=
  ⟨rfl, by simp⟩

/-- C2 amended: with the credential present, `fetchUnsplashImages` never
raises — a non-success HTTP status or a network failure yields the fixed
ordered list of 4 placeholder URLs — but with the credential absent it raises
instead of falling back. -/
theorem fetchUnsplashImages_fallback (accessKey mood : String) (outcome : FetchOutcome)
    (urls : List String) (hk : accessKey ≠ "") :
    (∃ r, fetchUnsplashImages accessKey mood outcome = Except.ok r) ∧
    fetchUnsplashImages accessKey mood (FetchOutcome.response false urls) =
      Except.ok placeholderImages ∧
    fetchUnsplashImages accessKey mood FetchOutcome.networkFailure =
      Except.ok placeholderImages ∧
    placeholderImages.length = 4 ∧
    fetchUnsplashImages "" mood outcome = Except.error "Unsplash API key not configured" := by
  refine ⟨?_, ?_, ?_, by decide, rfl⟩
  · cases outcome with
    | response ok rurls =>
      cases ok with
      | true =>
        refine ⟨rurls, ?_⟩
        simp [fetchUnsplashImages, hk]
      | false =>
        refine ⟨placeholderImages, ?_⟩
        simp [fetchUnsplashImages, hk]
    | networkFailure =>
      refine ⟨placeholderImages, ?_⟩
      simp [fetchUnsplashImages, hk]
  · simp [fetchUnsplashImages, hk]
  · simp [fetchUnsplashImages, hk]

/-- C2 witness: with a non-empty credential and a failed request, the four
placeholder URLs come back. -/
theorem fetchUnsplashImages_fallback_witness :
    fetchUnsplashImages "k" "happy" FetchOutcome.networkFailure =
      Except.ok placeholderImages ∧ placeholderImages.length = 4 :=
  ⟨(fetchUnsplashImages_fallback "k" "happy" FetchOutcome.networkFailure [] (by decide)).2.2.1,
   (fetchUnsplashImages_fallback "k" "happy" FetchOutcome.networkFailure [] (by decide)).2.2.2.1⟩

/-! ### C3: mood-from-image classifier fallback behaviour -/

/-- C3 counterexample: with the vision credential absent the classifier raises
`"OpenAI API key not configured"` instead of returning `"peaceful"`, and the
analyze-mood handler then fails (500) on a perfectly valid input. -/
theorem analyzeMood_missing_key_raises :
    analyzeMoodFromImage "" "img" ChatOutcome.failure =
      Except.error "OpenAI API key not configured" ∧
    postAnalyzeMood "" (some "img") ChatOutcome.failure = (500, none) :=
  ⟨rfl, rfl⟩

/-- C3 amended: with the vision credential present, `analyzeMoodFromImage`
never raises — any failure of the external call yields the fixed default
`"peaceful"` and the analyze-mood handler answers 200 on every valid input —
but with the credential absent the classifier raises and the handler reports a
processing error (500) even for a valid image payload. -/
theorem analyzeMoodFromImage_fallback (apiKey img : String) (outcome : ChatOutcome)
    (hk : apiKey ≠ "") :
    (∃ m, analyzeMoodFromImage apiKey img outcome = Except.ok m) ∧
    analyzeMoodFromImage apiKey img ChatOutcome.failure = Except.ok "peaceful" ∧
    (∃ m, postAnalyzeMood apiKey (some img) outcome = (200, some m)) ∧
    postAnalyzeMood apiKey none outcome = (500, none) ∧
    analyzeMoodFromImage "" img outcome = Except.error "OpenAI API key not configured" ∧
    postAnalyzeMood "" (some img) outcome = (500, none) := by
  have hok : ∃ m, analyzeMoodFromImage apiKey img outcome = Except.ok m := by
    cases outcome with
    | success content =>
      refine ⟨detectedMoodOf content, ?_⟩
      simp [analyzeMoodFromImage, hk]
    | failure =>
      refine ⟨"peaceful", ?_⟩
      simp [analyzeMoodFromImage, hk]
  refine ⟨hok, by simp [analyzeMoodFromImage, hk], ?_, rfl, ?_, ?_⟩
  · obtain ⟨m, hm⟩ := hok
    exact ⟨m, by simp [postAnalyzeMood, hm]⟩
  · simp [analyzeMoodFromImage]
  · simp [postAnalyzeMood, analyzeMoodFromImage]

/-- C3 witness: with a credential present and a failing vision call, the
classifier returns `"peaceful"`. -/
theorem analyzeMoodFromImage_fallback_witness :
    analyzeMoodFromImage "k" "img" ChatOutcome.failure = Except.ok "peaceful" :=
  (analyzeMoodFromImage_fallback "k" "img" ChatOutcome.failure (by decide)).2.1

/-! ### C4: generate-handler validation -/

/-- C4 counterexample: an empty mood is rejected by validation, but the
handler's single catch turns the Zod throw into status 500, which is not a
4xx-class outcome; the store is unchanged. -/
theorem generate_validation_status_counterexample :
    postMoodboards MemStorage.empty "ukey" "okey" (some "")
        (FetchOutcome.response true ["u"]) (ChatOutcome.success (some "q")) "sid" 0 =
      (500, MemStorage.empty) ∧
    ¬(400 ≤ (postMoodboards MemStorage.empty "ukey" "okey" (some "")
        (FetchOutcome.response true ["u"]) (ChatOutcome.success (some "q")) "sid" 0).1 ∧
      (postMoodboards MemStorage.empty "ukey" "okey" (some "")
        (FetchOutcome.response true ["u"]) (ChatOutcome.success (some "q")) "sid" 0).1 < 500) := by
  refine ⟨rfl, ?_⟩
  intro h
  exact absurd h.2 (by decide)

/-- C4 amended: a generate request whose mood is absent, empty, or longer than
100 characters is refused with status 500 (the handler's catch-all processing
status — the code never produces a 4xx), and no moodboard record is created:
the store is returned unchanged. -/
theorem generate_validation_rejects (st : MemStorage) (uKey oKey : String)
    (moodField : Option String) (fo : FetchOutcome) (co : ChatOutcome)
    (sid : String) (now : Nat)
    (h : moodField = none ∨ ∃ m, moodField = some m ∧ (m.length < 1 ∨ 100 < m.length)) :
    postMoodboards st uKey oKey moodField fo co sid now = (500, st) := by
  rcases h with h | ⟨m, rfl, hm⟩
  · subst h
    rfl
  · simp only [postMoodboards]
    rw [if_pos hm]

/-- C4 witness: the empty mood is refused with 500 and the fresh store stays
empty. -/
theorem generate_validation_rejects_witness :
    postMoodboards MemStorage.empty "u" "o" (some "") FetchOutcome.networkFailure
      ChatOutcome.failure "s" 0 = (500, MemStorage.empty) :=
  generate_validation_rejects MemStorage.empty "u" "o" (some "") FetchOutcome.networkFailure
    ChatOutcome.failure "s" 0 (Or.inr ⟨"", rfl, Or.inl (by decide)⟩)

/-! ### C5: color mapper -/

/-- C5: `getColorsForMood` is total and deterministic: lower-case the input;
on an exact table key return that key's palette; otherwise return the palette
of the first entry in table iteration order whose key is a substring of the
input or contains the input as a substring; otherwise the fixed four-color
default palette. The result is never empty. -/
theorem getColorsForMood_correct (mood : String) :
    (∀ cs, (jsToLower mood, cs) ∈ moodColorMap → getColorsForMood mood = cs) ∧
    (tableLookup (jsToLower mood) moodColorMap = none →
      ∀ i : Fin moodColorMap.length,
        moodMatches (jsToLower mood) (moodColorMap.get i).1 = true →
        (∀ j : Fin moodColorMap.length, (j : Nat) < (i : Nat) →
          moodMatches (jsToLower mood) (moodColorMap.get j).1 = false) →
        getColorsForMood mood = (moodColorMap.get i).2) ∧
    (tableLookup (jsToLower mood) moodColorMap = none →
      (∀ p ∈ moodColorMap, moodMatches (jsToLower mood) p.1 = false) →
      getColorsForMood mood = defaultColors) ∧
    getColorsForMood mood ≠ [] := by
  refine ⟨?_, ?_, ?_, ?_⟩
  · intro cs hmem
    have hl : tableLookup (jsToLower mood) moodColorMap = some cs :=
      tableLookup_of_mem (by decide) hmem
    simp [getColorsForMood, hl]
  · intro hnone i hi hj
    have hfind := find?_eq_get_of_first (fun p => moodMatches (jsToLower mood) p.1)
      moodColorMap i hi hj
    simp [getColorsForMood, hnone, hfind]
  · intro hnone hall
    have hfind : moodColorMap.find? (fun p => moodMatches (jsToLower mood) p.1) = none :=
      List.find?_eq_none.2 (fun p hp => by simp [hall p hp])
    simp [getColorsForMood, hnone, hfind]
  · cases h1 : tableLookup (jsToLower mood) moodColorMap with
    | some cs =>
      have hmem := tableLookup_mem h1
      have hne : cs ≠ [] := (by decide : ∀ q ∈ moodColorMap, q.2 ≠ []) _ hmem
      simpa [getColorsForMood, h1] using hne
    | none =>
      cases h2 : moodColorMap.find? (fun p => moodMatches (jsToLower mood) p.1) with
      | some p =>
        have hmem := List.mem_of_find?_eq_some h2
        have hne : p.2 ≠ [] := (by decide : ∀ q ∈ moodColorMap, q.2 ≠ []) _ hmem
        simpa [getColorsForMood, h1, h2] using hne
      | none => simp [getColorsForMood, h1, h2, defaultColors]

/-- C5 witness: "Sadness" is not an exact key; its first (and only) partial
match in table order is the entry "sad", whose palette comes back. -/
theorem getColorsForMood_correct_witness :
    getColorsForMood "Sadness" = ["#90A4AE", "#78909C", "#B0BEC5", "#CFD8DC"] :=
  (getColorsForMood_correct "Sadness").2.1 (by decide) ⟨3, by decide⟩ (by decide) (by decide)

/-! ### C6: playlist mapper -/

/-- C6: `getPlaylistForMood` follows the same exact / first-partial-match /
default shape as the color mapper, mapping to a single playlist id; its key
set is a strict subset of the color mapper's keys; and it always returns a
present playlist id, never `undefined`. -/
theorem getPlaylistForMood_correct (mood : String) :
    (∀ pid, (jsToLower mood, pid) ∈ moodPlaylistMap → getPlaylistForMood mood = some pid) ∧
    (tableLookup (jsToLower mood) moodPlaylistMap = none →
      ∀ i : Fin moodPlaylistMap.length,
        moodMatches (jsToLower mood) (moodPlaylistMap.get i).1 = true →
        (∀ j : Fin moodPlaylistMap.length, (j : Nat) < (i : Nat) →
          moodMatches (jsToLower mood) (moodPlaylistMap.get j).1 = false) →
        getPlaylistForMood mood = some (moodPlaylistMap.get i).2) ∧
    (tableLookup (jsToLower mood) moodPlaylistMap = none →
      (∀ p ∈ moodPlaylistMap, moodMatches (jsToLower mood) p.1 = false) →
      getPlaylistForMood mood = some defaultPlaylistId) ∧
    (getPlaylistForMood mood).isSome = true ∧
    (∀ k ∈ moodPlaylistMap.map Prod.fst, k ∈ moodColorMap.map Prod.fst) ∧
    (∃ k ∈ moodColorMap.map Prod.fst, k ∉ moodPlaylistMap.map Prod.fst) := by
  refine ⟨?_, ?_, ?_, ?_, by decide, by decide⟩
  · intro pid hmem
    have hl : tableLookup (jsToLower mood) moodPlaylistMap = some pid :=
      tableLookup_of_mem (by decide) hmem
    have hne : pid ≠ "" := (by decide : ∀ q ∈ moodPlaylistMap, q.2 ≠ "") _ hmem
    simp [getPlaylistForMood, hl, hne]
  · intro hnone i hi hj
    have hfind := find?_eq_get_of_first (fun p => moodMatches (jsToLower mood) p.1)
      moodPlaylistMap i hi hj
    simp [getPlaylistForMood, hnone, hfind]
  · intro hnone hall
    have hfind : moodPlaylistMap.find? (fun p => moodMatches (jsToLower mood) p.1) = none :=
      List.find?_eq_none.2 (fun p hp => by simp [hall p hp])
    simp [getPlaylistForMood, hnone, hfind]
  · cases h1 : tableLookup (jsToLower mood) moodPlaylistMap with
    | some pid =>
      by_cases h2 : pid = ""
      · subst h2
        cases h3 : moodPlaylistMap.find? (fun p => moodMatches (jsToLower mood) p.1) with
        | some p => simp [getPlaylistForMood, h1, h3]
        | none => simp [getPlaylistForMood, h1, h3]
      · simp [getPlaylistForMood, h1, h2]
    | none =>
      cases h3 : moodPlaylistMap.find? (fun p => moodMatches (jsToLower mood) p.1) with
      | some p => simp [getPlaylistForMood, h1, h3]
      | none => simp [getPlaylistForMood, h1, h3]

/-- C6 witness: "Happy" hits the exact key "happy" and gets its playlist id.
-/
theorem getPlaylistForMood_correct_witness :
    getPlaylistForMood "Happy" = some "37i9dQZF1DX0XUsuxWHRQd" :=
  (getPlaylistForMood_correct "Happy").1 "37i9dQZF1DX0XUsuxWHRQd" (by decide)

/-! ### C9: default playlist coincides with the happy playlist -/

/-- C9: a mood matching no playlist-table key (neither exactly nor by
substring in either direction) receives the default id
`"37i9dQZF1DX0XUsuxWHRQd"`, which is exactly the id the table assigns to
"happy" — the two moodboards are indistinguishable by their playlist field. -/
theorem getPlaylistForMood_default_eq_happy (mood : String)
    (h : ∀ p ∈ moodPlaylistMap, moodMatches (jsToLower mood) p.1 = false) :
    getPlaylistForMood mood = some "37i9dQZF1DX0XUsuxWHRQd" ∧
    getPlaylistForMood "happy" = some "37i9dQZF1DX0XUsuxWHRQd" ∧
    getPlaylistForMood mood = getPlaylistForMood "happy" := by
  have hnone : tableLookup (jsToLower mood) moodPlaylistMap = none := by
    apply tableLookup_eq_none_of
    intro v hv
    have hm := h _ hv
    simp [moodMatches, jsIncludes, List.infix_refl] at hm
  have hfind : moodPlaylistMap.find? (fun p => moodMatches (jsToLower mood) p.1) = none :=
    List.find?_eq_none.2 (fun p hp => by simp [h p hp])
  have h1 : getPlaylistForMood mood = some "37i9dQZF1DX0XUsuxWHRQd" := by
    simp [getPlaylistForMood, hnone, hfind, defaultPlaylistId]
  have h2 : getPlaylistForMood "happy" = some "37i9dQZF1DX0XUsuxWHRQd" := by decide
  exact ⟨h1, h2, h1.trans h2.symm⟩

/-- C9 witness: "xyzq" matches no playlist key and lands on the happy
playlist id. -/
theorem getPlaylistForMood_default_eq_happy_witness :
    getPlaylistForMood "xyzq" = getPlaylistForMood "happy" :=
  (getPlaylistForMood_default_eq_happy "xyzq" (by decide)).2.2

/-! ### C7: store create/lookup roundtrip -/

/-- C7: over any sequence of creates on a fresh store with pairwise-distinct
shareIds: each create followed immediately by a shareId lookup returns exactly
the created record; the assigned ids are pairwise strictly increasing in
creation order (hence pairwise distinct); and looking up a shareId that was
never inserted returns absent. -/
theorem memStorage_create_roundtrip (inserts : List (InsertMoodboard × Nat)) (sid : String)
    (hdist : (inserts.map (fun q => q.1.shareId)).Nodup)
    (hsid : sid ∉ inserts.map (fun q => q.1.shareId)) :
    (∀ pre ins now post, inserts = pre ++ (ins, now) :: post →
      getMoodboardByShareId (createMoodboard (runCreates MemStorage.empty pre).2 ins now).2
          ins.shareId =
        some (createMoodboard (runCreates MemStorage.empty pre).2 ins now).1) ∧
    ((runCreates MemStorage.empty inserts).1.map (fun mb => mb.id)).Pairwise (· < ·) ∧
    getMoodboardByShareId (runCreates MemStorage.empty inserts).2 sid = none := by
  refine ⟨?_, ?_, ?_⟩
  · intro pre ins now post _
    apply getByShareId_after_create
    have hc := runCreates_currentId pre MemStorage.empty
    rw [hc]
    simp [MemStorage.empty]
  · rw [runCreates_ids]
    exact List.pairwise_lt_range' _ _
  · rw [getMoodboardByShareId, runCreates_lookup_miss sid inserts MemStorage.empty hsid]
    rfl

/-- Two concrete inserts used to witness the store roundtrip. -/
def demoInserts : List (InsertMoodboard × Nat) :=
  [({ mood := "happy", quote := "q1", images := ["i1"], colors := ["c1"],
      spotifyPlaylistId := some "p1", shareId := "share-a" }, 5),
   ({ mood := "sad", quote := "q2", images := ["i2"], colors := ["c2"],
      spotifyPlaylistId := none, shareId := "share-b" }, 6)]

/-- C7 witness: on two concrete creates with distinct shareIds, the ids are
strictly increasing and a never-inserted shareId resolves to absent. -/
theorem memStorage_create_roundtrip_witness :
    ((runCreates MemStorage.empty demoInserts).1.map (fun mb => mb.id)).Pairwise (· < ·) ∧
    getMoodboardByShareId (runCreates MemStorage.empty demoInserts).2 "nonexistent" = none := by
  have h := memStorage_create_roundtrip demoInserts "nonexistent" (by decide) (by decide)
  exact ⟨h.2.1, h.2.2⟩

/-! ### C8: classifier token extraction -/

/-- Modelled from the claim's words, for comparison with the code: the first
whitespace-delimited token of the response, lower-cased, with all
non-alphabetic characters stripped. -/
def specFirstWhitespaceToken (resp : String) : String :=
  ⟨stripNonLowerAlpha
    (((jsToLower resp).data.dropWhile Char.isWhitespace).takeWhile (fun c => !c.isWhitespace))⟩

/-- C8 counterexample: the code is not "first whitespace-delimited token,
lower-cased, stripped" for every response: a blank response short-circuits to
"peaceful" instead of the empty token, and the code splits on the space
character only, so a newline-separated response keeps both words. -/
theorem analyzeMood_token_counterexample :
    analyzeMoodFromImage "key" "img" (ChatOutcome.success (some "")) = Except.ok "peaceful" ∧
    specFirstWhitespaceToken "" = "" ∧
    analyzeMoodFromImage "key" "img" (ChatOutcome.success (some "very\nhappy")) =
      Except.ok "veryhappy" ∧
    specFirstWhitespaceToken "very\nhappy" = "very" ∧
    ("peaceful" : String) ≠ "" ∧ ("veryhappy" : String) ≠ "very" :=
  ⟨rfl, by decide, rfl, by decide, by decide, by decide⟩

/-- C8 amended: for every vision response whose trimmed lower-cased text is
non-empty, the classifier returns the first space-delimited token of that
trimmed lower-cased text with every character outside a–z stripped (a missing
or blank response yields "peaceful" instead); in particular "Excited!" yields
exactly "excited". -/
theorem analyzeMood_first_space_token (apiKey img resp : String) (hk : apiKey ≠ "")
    (ht : jsToLower (jsTrim resp) ≠ "") :
    analyzeMoodFromImage apiKey img (ChatOutcome.success (some resp)) =
      Except.ok ⟨stripNonLowerAlpha (firstSpaceToken (jsToLower (jsTrim resp)).data)⟩ ∧
    analyzeMoodFromImage apiKey img (ChatOutcome.success (some "Excited!")) =
      Except.ok "excited" := by
  constructor
  · simp [analyzeMoodFromImage, hk, detectedMoodOf, ht]
  · simp only [analyzeMoodFromImage, if_neg hk]
    exact congrArg Except.ok (by decide)

/-- C8 witness: scenario D — the response "Excited!" comes back as "excited".
-/
theorem analyzeMood_first_space_token_witness :
    analyzeMoodFromImage "k" "i" (ChatOutcome.success (some "Excited!")) =
      Except.ok "excited" :=
  (analyzeMood_first_space_token "k" "i" "Excited!" (by decide) (by decide)).2

/-! ### C10: an all-non-alphabetic response produces the empty mood -/

/-- C10 counterexample: the response "99!" does make the classifier return the
empty mood, but the empty mood does not map to the default palette — every
table key contains the empty string, so the first entry ("happy") wins the
partial match. -/
theorem empty_mood_not_default_palette :
    analyzeMoodFromImage "k2" "i2" (ChatOutcome.success (some "99!")) = Except.ok "" ∧
    getColorsForMood "" ≠ defaultColors :=
  ⟨rfl, by decide⟩

/-- C10 amended: a non-empty response whose first space-delimited token has no
alphabetic characters (such as "123!") makes the classifier return the empty
string, and the analyze-mood handler answers 200 with mood `""`; fed to the
mappers, the empty mood substring-matches the first table entry ("happy"), so
it receives the happy palette — not the default palette — and the happy
playlist id, whose value coincides with the default playlist id. -/
theorem empty_mood_flows_to_first_entry :
    analyzeMoodFromImage "key" "img" (ChatOutcome.success (some "123!")) = Except.ok "" ∧
    postAnalyzeMood "key" (some "img") (ChatOutcome.success (some "123!")) = (200, some "") ∧
    getColorsForMood "" = ["#FFA726", "#66BB6A", "#42A5F5", "#FFEB3B"] ∧
    getPlaylistForMood "" = some "37i9dQZF1DX0XUsuxWHRQd" ∧
    getPlaylistForMood "" = some defaultPlaylistId :=
  ⟨rfl, rfl, by decide, by decide, by decide⟩

end VibeBoard
